import Mathlib

/-!
Verification development for the service-tracker repository: a shallow
embedding of the Schema and Storage-provider layers (the in-memory
`MemStorage` implementation of the `IStorage` contract) together with the
attachment-append route handler, and theorems checking the specification
against this embedding.

Modelling conventions:
- JS strings are Lean `String`s (a structure over `List Char`);
  `toLowerCase` maps `Char.toLower` over the characters and `includes`
  is the contiguous-substring test.
- JS `Map` objects are association lists `List (Nat × α)` in insertion
  order: `set` on an existing key replaces the value in place, `set` on a
  fresh key appends; `values()` lists second components in order.
- `randomUUID` ids are modelled by a fresh-id counter carried in the
  store state; `new Date()` timestamps are `Nat`s supplied by the caller
  as an explicit `now` argument.
- JS `Array.prototype.sort` with the comparator on `createdAt` is
  modelled by `List.insertionSort` with the corresponding relation.
-/

namespace ServiceTracker

/-- JS `s.toLowerCase()`, modelled characterwise. -/
def strToLower (s : String) : String :=
  ⟨s.data.map Char.toLower⟩

/-- JS `s.includes(q)`: `q` occurs as a contiguous substring of `s`. -/
def strIncludes (s q : String) : Bool :=
  decide (q.data <:+: s.data)

/-- JS `x || d` on an optional string: `undefined` and the empty string
are both falsy, so each of them yields the default. -/
def jsOrString (x : Option String) (d : String) : String :=
  match x with
  | none => d
  | some s => if s = "" then d else s

/-- The `service_requests` row shape (schema table `serviceRequests`).
Timestamps and ids are `Nat`s. The `status` column is plain text with no
database-level restriction to the five enumerated values. -/
structure ServiceRequest where
  id : Nat
  productName : String
  serialNumber : String
  customerName : String
  customerContact : String
  issueDescription : String
  status : String
  attachments : List String
  createdAt : Nat
  updatedAt : Nat
deriving DecidableEq

/-- `InsertServiceRequest`: the insert schema omits `id`, `createdAt`,
`updatedAt`; `status` and `attachments` have defaults so they are
optional, the other five text fields are required. -/
structure InsertServiceRequest where
  productName : String
  serialNumber : String
  customerName : String
  customerContact : String
  issueDescription : String
  status : Option String
  attachments : Option (List String)
deriving DecidableEq

/-- The `comments` row shape (schema table `comments`): exactly the four
columns `id`, `service_request_id`, `text`, `created_at`. -/
structure Comment where
  id : Nat
  serviceRequestId : Nat
  text : String
  createdAt : Nat
deriving DecidableEq

/-- `InsertComment`: the comment insert schema omits `id` and `createdAt`. -/
structure InsertComment where
  serviceRequestId : Nat
  text : String
deriving DecidableEq

/-- The column names of the `service_requests` table, from the schema. -/
def serviceRequestsColumns : List String :=
  ["id", "product_name", "serial_number", "customer_name",
   "customer_contact", "issue_description", "status", "attachments",
   "created_at", "updated_at"]

/-- The column names of the `comments` table, from the schema. -/
def commentsColumns : List String :=
  ["id", "service_request_id", "text", "created_at"]

/-- The five status values enumerated by the schema comment on the
`status` column: new, inspection, service, received, completed. -/
def statusValues : List String :=
  ["new", "inspection", "service", "received", "completed"]

/-- `TypeScript Partial<ServiceRequest>`: every field optional; a present
field overwrites the existing one when spread as `{...existing, ...updates}`. -/
structure ServiceRequestUpdates where
  id : Option Nat := none
  productName : Option String := none
  serialNumber : Option String := none
  customerName : Option String := none
  customerContact : Option String := none
  issueDescription : Option String := none
  status : Option String := none
  attachments : Option (List String) := none
  createdAt : Option Nat := none
  updatedAt : Option Nat := none
deriving DecidableEq

/-- The JS object spread `{...existing, ...updates}`. -/
def mergeUpdates (existing : ServiceRequest) (u : ServiceRequestUpdates) :
    ServiceRequest :=
  { id := u.id.getD existing.id
    productName := u.productName.getD existing.productName
    serialNumber := u.serialNumber.getD existing.serialNumber
    customerName := u.customerName.getD existing.customerName
    customerContact := u.customerContact.getD existing.customerContact
    issueDescription := u.issueDescription.getD existing.issueDescription
    status := u.status.getD existing.status
    attachments := u.attachments.getD existing.attachments
    createdAt := u.createdAt.getD existing.createdAt
    updatedAt := u.updatedAt.getD existing.updatedAt }

/-- JS `Map.get`: the value stored under the first occurrence of the key. -/
def mapGet {α : Type} : List (Nat × α) → Nat → Option α
  | [], _ => none
  | (k', v) :: m, k => if k' == k then some v else mapGet m k

/-- JS `Map.set`: replaces in place when the key is present, appends
otherwise (JS maps keep the original insertion position on update). -/
def mapSet {α : Type} : List (Nat × α) → Nat → α → List (Nat × α)
  | [], k, v => [(k, v)]
  | (k', v') :: m, k, v =>
      if k' == k then (k, v) :: m else (k', v') :: mapSet m k v

/-- JS `Array.from(map.values())`. -/
def mapValues {α : Type} (m : List (Nat × α)) : List α :=
  m.map (fun p => p.2)

/-- The `MemStorage` state: the two maps plus the fresh-id source. -/
structure MemStorage where
  serviceRequests : List (Nat × ServiceRequest)
  comments : List (Nat × Comment)
  nextId : Nat
deriving DecidableEq

/-- The comparator `(a, b) => b.createdAt - a.createdAt`: descending by
creation time. -/
def byCreatedAtDesc (a b : ServiceRequest) : Prop :=
  b.createdAt ≤ a.createdAt

instance : DecidableRel byCreatedAtDesc :=
  fun a b => Nat.decLe b.createdAt a.createdAt

instance : IsTotal ServiceRequest byCreatedAtDesc :=
  ⟨fun a b => (Nat.le_total b.createdAt a.createdAt).imp id id⟩

instance : IsTrans ServiceRequest byCreatedAtDesc :=
  ⟨fun _ _ _ h1 h2 => Nat.le_trans h2 h1⟩

/-- The comparator `(a, b) => a.createdAt - b.createdAt` on comments:
ascending by creation time. -/
def commentByCreatedAtAsc (a b : Comment) : Prop :=
  a.createdAt ≤ b.createdAt

instance : DecidableRel commentByCreatedAtAsc :=
  fun a b => Nat.decLe a.createdAt b.createdAt

instance : IsTotal Comment commentByCreatedAtAsc :=
  ⟨fun a b => (Nat.le_total a.createdAt b.createdAt).imp id id⟩

instance : IsTrans Comment commentByCreatedAtAsc :=
  ⟨fun _ _ _ h1 h2 => Nat.le_trans h1 h2⟩

/-- `.sort((a, b) => new Date(b.createdAt) - new Date(a.createdAt))`. -/
def sortDescByCreatedAt (l : List ServiceRequest) : List ServiceRequest :=
  l.insertionSort byCreatedAtDesc

/-- `.sort((a, b) => new Date(a.createdAt) - new Date(b.createdAt))`. -/
def sortAscByCreatedAt (l : List Comment) : List Comment :=
  l.insertionSort commentByCreatedAtAsc

/-- `MemStorage.getServiceRequest`. -/
def getServiceRequest (s : MemStorage) (id : Nat) : Option ServiceRequest :=
  mapGet s.serviceRequests id

/-- `MemStorage.getAllServiceRequests`. -/
def getAllServiceRequests (s : MemStorage) : List ServiceRequest :=
  sortDescByCreatedAt (mapValues s.serviceRequests)

/-- `MemStorage.getActiveServiceRequests`. -/
def getActiveServiceRequests (s : MemStorage) : List ServiceRequest :=
  sortDescByCreatedAt
    ((mapValues s.serviceRequests).filter (fun r => r.status != "completed"))

/-- `MemStorage.getCompletedServiceRequests`. -/
def getCompletedServiceRequests (s : MemStorage) : List ServiceRequest :=
  sortDescByCreatedAt
    ((mapValues s.serviceRequests).filter (fun r => r.status == "completed"))

/-- `MemStorage.createServiceRequest`: assigns a fresh id, defaults
`status` with JS `|| "new"` (so `undefined` and `""` both become `"new"`),
defaults `attachments` with `|| []`, stamps both timestamps to `now`. -/
def createServiceRequest (s : MemStorage) (ins : InsertServiceRequest)
    (now : Nat) : ServiceRequest × MemStorage :=
  let id := s.nextId
  let serviceRequest : ServiceRequest :=
    { id := id
      productName := ins.productName
      serialNumber := ins.serialNumber
      customerName := ins.customerName
      customerContact := ins.customerContact
      issueDescription := ins.issueDescription
      status := jsOrString ins.status "new"
      attachments := ins.attachments.getD []
      createdAt := now
      updatedAt := now }
  (serviceRequest,
    { s with
        serviceRequests := mapSet s.serviceRequests id serviceRequest
        nextId := s.nextId + 1 })

/-- `MemStorage.updateServiceRequest`: looks the record up by key,
returns the not-found signal (`none`) untouched when absent, otherwise
spreads the updates over the record, restamps `updatedAt`, stores the
result back under the same key and returns it. -/
def updateServiceRequest (s : MemStorage) (id : Nat)
    (updates : ServiceRequestUpdates) (now : Nat) :
    Option ServiceRequest × MemStorage :=
  match mapGet s.serviceRequests id with
  | none => (none, s)
  | some existing =>
      let updated : ServiceRequest :=
        { mergeUpdates existing updates with updatedAt := now }
      (some updated,
        { s with serviceRequests := mapSet s.serviceRequests id updated })

/-- The filter of `MemStorage.searchServiceRequests`: the lowercased
query occurs in one of the four lowercased searchable fields. -/
def matchesQuery (lowercaseQuery : String) (r : ServiceRequest) : Bool :=
  strIncludes (strToLower r.customerContact) lowercaseQuery ||
  strIncludes (strToLower r.serialNumber) lowercaseQuery ||
  strIncludes (strToLower r.customerName) lowercaseQuery ||
  strIncludes (strToLower r.productName) lowercaseQuery

/-- `MemStorage.searchServiceRequests`. -/
def searchServiceRequests (s : MemStorage) (query : String) :
    List ServiceRequest :=
  sortDescByCreatedAt
    ((mapValues s.serviceRequests).filter (matchesQuery (strToLower query)))

/-- `MemStorage.getCommentsByServiceRequestId`. -/
def getCommentsByServiceRequestId (s : MemStorage) (serviceRequestId : Nat) :
    List Comment :=
  sortAscByCreatedAt
    ((mapValues s.comments).filter
      (fun c => c.serviceRequestId == serviceRequestId))

/-- `MemStorage.createComment`: assigns a fresh id, stamps `createdAt`,
copies `serviceRequestId` and `text` from the insert payload. -/
def createComment (s : MemStorage) (ins : InsertComment) (now : Nat) :
    Comment × MemStorage :=
  let id := s.nextId
  let comment : Comment :=
    { id := id
      serviceRequestId := ins.serviceRequestId
      text := ins.text
      createdAt := now }
  (comment,
    { s with
        comments := mapSet s.comments id comment
        nextId := s.nextId + 1 })

/-- The five dashboard counters returned by `getMetrics`. -/
structure Metrics where
  totalActive : Nat
  newComplaints : Nat
  underInspection : Nat
  sentToService : Nat
  received : Nat
deriving DecidableEq

/-- `MemStorage.getMetrics`: derived from `getActiveServiceRequests`,
never stored. -/
def getMetrics (s : MemStorage) : Metrics :=
  let activeRequests := getActiveServiceRequests s
  { totalActive := activeRequests.length
    newComplaints := (activeRequests.filter (fun r => r.status == "new")).length
    underInspection :=
      (activeRequests.filter (fun r => r.status == "inspection")).length
    sentToService :=
      (activeRequests.filter (fun r => r.status == "service")).length
    received :=
      (activeRequests.filter (fun r => r.status == "received")).length }

/-- The handler of `POST /api/service-requests/:id/attachments`: finds the
record in `getAllServiceRequests()`, answers 404 (`none`) when absent,
otherwise writes back the existing attachment list with the new
references concatenated after it via `updateServiceRequest`. -/
def addAttachmentsRoute (s : MemStorage) (id : Nat)
    (attachments : List String) (now : Nat) :
    Option ServiceRequest × MemStorage :=
  let allRequests := getAllServiceRequests s
  match allRequests.find? (fun r => r.id == id) with
  | none => (none, s)
  | some request =>
      let currentAttachments := request.attachments
      updateServiceRequest s id
        { attachments := some (currentAttachments ++ attachments) } now

/-- The empty store, as built by the `MemStorage` constructor. -/
def emptyStorage : MemStorage :=
  { serviceRequests := [], comments := [], nextId := 0 }

/-- A concrete insert payload (the worked example of the spec), fields
`productName`, `serialNumber`, `customerName`, `customerContact`,
`issueDescription`; `status` and `attachments` omitted. -/
def exampleInsert : InsertServiceRequest :=
  { productName := "Pump-X"
    serialNumber := "SN1"
    customerName := "Acme"
    customerContact := "a@x.com"
    issueDescription := "leak"
    status := none
    attachments := none }

/-- The query `q` is a case-insensitive substring of the field `s`. -/
def caseInsensitiveSubstr (q s : String) : Prop :=
  (strToLower q).data <:+: (strToLower s).data

instance (q s : String) : Decidable (caseInsensitiveSubstr q s) :=
  List.decidableInfix _ _

/-- The record produced by creating the spec's worked example at time 5. -/
def exampleRecordAt5 : ServiceRequest :=
  (createServiceRequest emptyStorage exampleInsert 5).1

/-- The store after creating the spec's worked example at time 5. -/
def exampleStateAt5 : MemStorage :=
  (createServiceRequest emptyStorage exampleInsert 5).2

/-- The record produced by creating the spec's worked example at time 10. -/
def exampleRecordAt10 : ServiceRequest :=
  (createServiceRequest emptyStorage exampleInsert 10).1

/-- The store after creating the spec's worked example at time 10. -/
def exampleStateAt10 : MemStorage :=
  (createServiceRequest emptyStorage exampleInsert 10).2

/-- A store reached by creating a request whose supplied status lies
outside the five enumerated values. -/
def strayStatusState : MemStorage :=
  (createServiceRequest emptyStorage
    { exampleInsert with status := some "paused" } 5).2

/-- The store after appending `["ref1"]` to the worked example's record. -/
def exampleStateRef1 : MemStorage :=
  (addAttachmentsRoute exampleStateAt5 0 ["ref1"] 6).2

/-- The worked example's record after the first attachment append. -/
def exampleRecordRef1 : ServiceRequest :=
  { exampleRecordAt5 with attachments := ["ref1"], updatedAt := 6 }

theorem mapGet_mapSet_self {α : Type} (m : List (Nat × α)) (k : Nat) (v : α) :
    mapGet (mapSet m k v) k = some v := by
  induction m with
  | nil => simp [mapSet, mapGet]
  | cons head tail ih =>
    obtain ⟨k', v'⟩ := head
    by_cases h : k' = k
    · simp [mapSet, mapGet, h]
    · simp [mapSet, mapGet, h, ih]

theorem sortDescByCreatedAt_perm (l : List ServiceRequest) :
    (sortDescByCreatedAt l).Perm l :=
  List.perm_insertionSort byCreatedAtDesc l

theorem sorted_sortDescByCreatedAt (l : List ServiceRequest) :
    List.Sorted byCreatedAtDesc (sortDescByCreatedAt l) :=
  List.sorted_insertionSort byCreatedAtDesc l

theorem mem_sortDescByCreatedAt {r : ServiceRequest} {l : List ServiceRequest} :
    r ∈ sortDescByCreatedAt l ↔ r ∈ l :=
  (sortDescByCreatedAt_perm l).mem_iff

theorem sortAscByCreatedAt_perm (l : List Comment) :
    (sortAscByCreatedAt l).Perm l :=
  List.perm_insertionSort commentByCreatedAtAsc l

theorem sorted_sortAscByCreatedAt (l : List Comment) :
    List.Sorted commentByCreatedAtAsc (sortAscByCreatedAt l) :=
  List.sorted_insertionSort commentByCreatedAtAsc l

theorem mem_sortAscByCreatedAt {c : Comment} {l : List Comment} :
    c ∈ sortAscByCreatedAt l ↔ c ∈ l :=
  (sortAscByCreatedAt_perm l).mem_iff

theorem countP_and_eq_of_imp {α : Type} (l : List α) (p q : α → Bool)
    (h : ∀ a, q a = true → p a = true) :
    l.countP (fun a => q a && p a) = l.countP q := by
  induction l with
  | nil => rfl
  | cons a l ih =>
    cases hq : q a with
    | false => simp [List.countP_cons, hq, ih]
    | true => simp [List.countP_cons, hq, h a hq, ih]

theorem countP_status_sum (l : List ServiceRequest)
    (h : ∀ r ∈ l, r.status ∈ statusValues) :
    l.countP (fun r => r.status == "new") +
        l.countP (fun r => r.status == "inspection") +
        l.countP (fun r => r.status == "service") +
        l.countP (fun r => r.status == "received") =
      l.countP (fun r => r.status != "completed") := by
  induction l with
  | nil => rfl
  | cons a l ih =>
    have ha := h a (List.mem_cons_self a l)
    have ih' := ih (fun r hr => h r (List.mem_cons_of_mem a hr))
    simp only [statusValues, List.mem_cons, List.mem_singleton,
      List.not_mem_nil, or_false] at ha
    rcases ha with ha | ha | ha | ha | ha <;>
      simp [List.countP_cons, ha] <;> omega

/-- C2 (counterexample): the claim that every accepted status value lies
in the five-value enumeration, and that a supplied status is always kept
verbatim, is false: `createServiceRequest` accepts the status "bogus",
which is outside the enumeration, and maps a supplied empty-string status
to "new" rather than keeping it. -/
theorem c2_status_counterexample :
    (createServiceRequest emptyStorage
        { exampleInsert with status := some "bogus" } 7).1.status = "bogus" ∧
    "bogus" ∉ statusValues ∧
    (createServiceRequest emptyStorage
        { exampleInsert with status := some "" } 7).1.status = "new" := by
  exact ⟨by decide, by decide, by decide⟩

/-- C2 (amended): on creation, `status` defaults to "new" when omitted or
when the supplied string is empty, and otherwise is exactly the supplied
string (with no restriction to the five enumerated values); `attachments`
defaults to the empty list when omitted and is kept verbatim otherwise. -/
theorem createServiceRequest_defaults (s : MemStorage)
    (ins : InsertServiceRequest) (now : Nat) :
    (ins.status = none → (createServiceRequest s ins now).1.status = "new") ∧
    (∀ t, ins.status = some t → t ≠ "" →
      (createServiceRequest s ins now).1.status = t) ∧
    (ins.status = some "" → (createServiceRequest s ins now).1.status = "new") ∧
    (ins.attachments = none → (createServiceRequest s ins now).1.attachments = []) ∧
    (∀ l, ins.attachments = some l →
      (createServiceRequest s ins now).1.attachments = l) := by
  refine ⟨?_, ?_, ?_, ?_, ?_⟩ <;> intros <;>
    simp_all [createServiceRequest, jsOrString]

/-- C2 (witness): creating the worked example, whose payload omits both
`status` and `attachments`, yields status "new" and empty attachments. -/
theorem c2_defaults_witness :
    (createServiceRequest emptyStorage exampleInsert 7).1.status = "new" ∧
    (createServiceRequest emptyStorage exampleInsert 7).1.attachments = [] :=
  ⟨(createServiceRequest_defaults emptyStorage exampleInsert 7).1 rfl,
   (createServiceRequest_defaults emptyStorage exampleInsert 7).2.2.2.1 rfl⟩

/-- C3 (counterexample): the claim that no update can mutate `createdAt`
is false: updating the worked example's record (created at time 10) with
a payload containing `createdAt := 99` overwrites the stored creation
time, because the update spreads every supplied field over the record. -/
theorem c3_createdAt_counterexample :
    getServiceRequest exampleStateAt10 0 = some exampleRecordAt10 ∧
    exampleRecordAt10.createdAt = 10 ∧
    ((updateServiceRequest exampleStateAt10 0 { createdAt := some 99 } 20).1.map
      ServiceRequest.createdAt) = some 99 := by
  exact ⟨by decide, by decide, by decide⟩

/-- C3 (amended): an update whose payload does not contain a `createdAt`
field preserves the record's creation time, both in the returned record
and in the stored one; only a payload that explicitly supplies
`createdAt` can overwrite it. -/
theorem update_preserves_createdAt (s : MemStorage) (id : Nat)
    (u : ServiceRequestUpdates) (now : Nat) (r : ServiceRequest)
    (hr : mapGet s.serviceRequests id = some r) (hu : u.createdAt = none) :
    (∃ r', (updateServiceRequest s id u now).1 = some r' ∧
      r'.createdAt = r.createdAt) ∧
    (∀ r'', mapGet (updateServiceRequest s id u now).2.serviceRequests id =
        some r'' → r''.createdAt = r.createdAt) := by
  unfold updateServiceRequest
  rw [hr]
  constructor
  · exact ⟨_, rfl, by simp [mergeUpdates, hu]⟩
  · intro r'' h''
    rw [mapGet_mapSet_self] at h''
    cases h''
    simp [mergeUpdates, hu]

/-- C3 (witness): a status-only update at time 20 keeps the worked
example's creation time 10. -/
theorem c3_witness :
    ∃ r', (updateServiceRequest exampleStateAt10 0
        { status := some "inspection" } 20).1 = some r' ∧
      r'.createdAt = exampleRecordAt10.createdAt :=
  (update_preserves_createdAt exampleStateAt10 0 { status := some "inspection" }
    20 exampleRecordAt10 (by decide) rfl).1

/-- C4 (counterexample): the claim that every Comment record has an
`attachments` field is false: the `comments` table has no such column,
and the comment created from a concrete payload consists of exactly
`id`, `serviceRequestId`, `text`, `createdAt`. -/
theorem c4_comment_counterexample :
    "attachments" ∉ commentsColumns ∧
    (createComment emptyStorage { serviceRequestId := 3, text := "hi" } 5).1 =
      { id := 0, serviceRequestId := 3, text := "hi", createdAt := 5 } := by
  exact ⟨by decide, by decide⟩

/-- C4 (amended): Comment records have no attachments field: the
`comments` table holds exactly the columns `id`, `service_request_id`,
`text`, `created_at` (only the `service_requests` table has an
`attachments` column), and `createComment` copies `serviceRequestId` and
`text` from the payload and stamps a fresh `id` and `createdAt`. -/
theorem comment_shape (s : MemStorage) (ins : InsertComment) (now : Nat) :
    (createComment s ins now).1 =
      { id := s.nextId, serviceRequestId := ins.serviceRequestId,
        text := ins.text, createdAt := now } ∧
    commentsColumns = ["id", "service_request_id", "text", "created_at"] ∧
    "attachments" ∈ serviceRequestsColumns :=
  ⟨rfl, rfl, by decide⟩

/-- C6: updating an id that is not present in the store returns the
not-found signal (`none`, surfaced as 404 by the API layer) and leaves
the store state, and hence every stored record, unchanged. -/
theorem update_missing_id (s : MemStorage) (id : Nat)
    (u : ServiceRequestUpdates) (now : Nat)
    (h : mapGet s.serviceRequests id = none) :
    (updateServiceRequest s id u now).1 = none ∧
    (updateServiceRequest s id u now).2 = s := by
  unfold updateServiceRequest
  rw [h]
  exact ⟨rfl, rfl⟩

/-- C6 (witness): updating id 0 in the empty store fails and changes
nothing. -/
theorem c6_witness :
    (updateServiceRequest emptyStorage 0 {} 5).1 = none ∧
    (updateServiceRequest emptyStorage 0 {} 5).2 = emptyStorage :=
  update_missing_id emptyStorage 0 {} 5 rfl

/-- C1 (counterexample): the claim that the four status counters always
sum exactly to `totalActive` is false: in the reachable store holding one
request whose status is "paused" (accepted by creation, outside the
enumeration), the four counters sum to 0 while `totalActive` is 1. -/
theorem c1_metrics_counterexample :
    (getMetrics strayStatusState).newComplaints +
        (getMetrics strayStatusState).underInspection +
        (getMetrics strayStatusState).sentToService +
        (getMetrics strayStatusState).received ≠
      (getMetrics strayStatusState).totalActive := by
  decide

/-- C1 (amended): for every store state, `totalActive` equals the length
of `getActiveServiceRequests` and counts exactly the stored requests
whose status differs from "completed", and each of the four status
counters counts exactly the stored requests with the corresponding
status, so completed requests are counted in none of the five counters;
and whenever every stored request's status lies in the five enumerated
values, the four counters sum exactly to `totalActive`. -/
theorem metrics_consistent (s : MemStorage) :
    (getMetrics s).totalActive = (getActiveServiceRequests s).length ∧
    (getMetrics s).totalActive =
      ((mapValues s.serviceRequests).filter
        (fun r => r.status != "completed")).length ∧
    (getMetrics s).newComplaints =
      ((mapValues s.serviceRequests).filter (fun r => r.status == "new")).length ∧
    (getMetrics s).underInspection =
      ((mapValues s.serviceRequests).filter
        (fun r => r.status == "inspection")).length ∧
    (getMetrics s).sentToService =
      ((mapValues s.serviceRequests).filter
        (fun r => r.status == "service")).length ∧
    (getMetrics s).received =
      ((mapValues s.serviceRequests).filter
        (fun r => r.status == "received")).length ∧
    ((∀ r ∈ mapValues s.serviceRequests, r.status ∈ statusValues) →
      (getMetrics s).newComplaints + (getMetrics s).underInspection +
          (getMetrics s).sentToService + (getMetrics s).received =
        (getMetrics s).totalActive) := by
  have hperm : (getActiveServiceRequests s).Perm
      ((mapValues s.serviceRequests).filter (fun r => r.status != "completed")) :=
    sortDescByCreatedAt_perm _
  have counter : ∀ q : ServiceRequest → Bool,
      (∀ r : ServiceRequest, q r = true → (r.status != "completed") = true) →
      ((getActiveServiceRequests s).filter q).length =
        ((mapValues s.serviceRequests).filter q).length := by
    intro q hq
    rw [← List.countP_eq_length_filter, ← List.countP_eq_length_filter,
      hperm.countP_eq, List.countP_filter,
      countP_and_eq_of_imp _ _ _ hq]
  have hnew := counter (fun r => r.status == "new")
    (fun r hr => by rw [eq_of_beq hr]; decide)
  have hins := counter (fun r => r.status == "inspection")
    (fun r hr => by rw [eq_of_beq hr]; decide)
  have hser := counter (fun r => r.status == "service")
    (fun r hr => by rw [eq_of_beq hr]; decide)
  have hrec := counter (fun r => r.status == "received")
    (fun r hr => by rw [eq_of_beq hr]; decide)
  refine ⟨rfl, hperm.length_eq, hnew, hins, hser, hrec, ?_⟩
  intro h
  show ((getActiveServiceRequests s).filter (fun r => r.status == "new")).length +
      ((getActiveServiceRequests s).filter (fun r => r.status == "inspection")).length +
      ((getActiveServiceRequests s).filter (fun r => r.status == "service")).length +
      ((getActiveServiceRequests s).filter (fun r => r.status == "received")).length =
    (getActiveServiceRequests s).length
  rw [hnew, hins, hser, hrec, hperm.length_eq,
    ← List.countP_eq_length_filter, ← List.countP_eq_length_filter,
    ← List.countP_eq_length_filter, ← List.countP_eq_length_filter,
    ← List.countP_eq_length_filter]
  exact countP_status_sum (mapValues s.serviceRequests) h

/-- C1 (witness): in the store holding the worked example (status "new"),
the four counters sum to `totalActive`. -/
theorem c1_metrics_witness :
    (getMetrics exampleStateAt5).newComplaints +
        (getMetrics exampleStateAt5).underInspection +
        (getMetrics exampleStateAt5).sentToService +
        (getMetrics exampleStateAt5).received =
      (getMetrics exampleStateAt5).totalActive :=
  (metrics_consistent exampleStateAt5).2.2.2.2.2.2 (by decide)

/-- C5: for every store state, the active and completed listings exactly
partition the full listing: their concatenation is a permutation of
`getAllServiceRequests`, a record is active exactly when it is listed
with status different from "completed", completed exactly when listed
with status "completed", and no record is in both. -/
theorem active_completed_partition (s : MemStorage) :
    ((getActiveServiceRequests s) ++ (getCompletedServiceRequests s)).Perm
      (getAllServiceRequests s) ∧
    (∀ r, r ∈ getActiveServiceRequests s ↔
      r ∈ getAllServiceRequests s ∧ r.status ≠ "completed") ∧
    (∀ r, r ∈ getCompletedServiceRequests s ↔
      r ∈ getAllServiceRequests s ∧ r.status = "completed") ∧
    (∀ r, r ∈ getActiveServiceRequests s →
      r ∉ getCompletedServiceRequests s) := by
  have hfc : (mapValues s.serviceRequests).filter
        (fun r => r.status == "completed") =
      (mapValues s.serviceRequests).filter
        (fun r => !(r.status != "completed")) :=
    List.filter_congr (fun r _ => by cases hb : r.status == "completed" <;>
      simp [bne, hb])
  have hmemA : ∀ r : ServiceRequest, r ∈ getActiveServiceRequests s ↔
      r ∈ mapValues s.serviceRequests ∧ r.status ≠ "completed" := by
    intro r
    rw [getActiveServiceRequests, mem_sortDescByCreatedAt, List.mem_filter,
      bne_iff_ne]
  have hmemC : ∀ r : ServiceRequest, r ∈ getCompletedServiceRequests s ↔
      r ∈ mapValues s.serviceRequests ∧ r.status = "completed" := by
    intro r
    rw [getCompletedServiceRequests, mem_sortDescByCreatedAt, List.mem_filter,
      beq_iff_eq]
  have hmemAll : ∀ r : ServiceRequest, r ∈ getAllServiceRequests s ↔
      r ∈ mapValues s.serviceRequests := by
    intro r
    rw [getAllServiceRequests, mem_sortDescByCreatedAt]
  refine ⟨?_, ?_, ?_, ?_⟩
  · have h1 : ((getActiveServiceRequests s) ++ (getCompletedServiceRequests s)).Perm
        (((mapValues s.serviceRequests).filter (fun r => r.status != "completed")) ++
          ((mapValues s.serviceRequests).filter (fun r => r.status == "completed"))) :=
      (sortDescByCreatedAt_perm _).append (sortDescByCreatedAt_perm _)
    have h2 : (((mapValues s.serviceRequests).filter (fun r => r.status != "completed")) ++
        ((mapValues s.serviceRequests).filter (fun r => r.status == "completed"))).Perm
          (mapValues s.serviceRequests) := by
      rw [hfc]
      exact List.filter_append_perm _ _
    exact (h1.trans h2).trans (sortDescByCreatedAt_perm _).symm
  · intro r
    rw [hmemA r, hmemAll r]
  · intro r
    rw [hmemC r, hmemAll r]
  · intro r hA hC
    exact ((hmemA r).mp hA).2 ((hmemC r).mp hC).2

/-- C5 (witness): the partition holds in the store holding the worked
example. -/
theorem c5_witness :
    ((getActiveServiceRequests exampleStateAt5) ++
        (getCompletedServiceRequests exampleStateAt5)).Perm
      (getAllServiceRequests exampleStateAt5) :=
  (active_completed_partition exampleStateAt5).1

/-- C7: for every non-empty query and every stored record, the search
result contains the record exactly when the query is a case-insensitive
substring of at least one of the four searchable fields
`customerContact`, `serialNumber`, `customerName`, `productName`. -/
theorem search_membership (s : MemStorage) (q : String) (r : ServiceRequest)
    (hq : q ≠ "") (hr : r ∈ mapValues s.serviceRequests) :
    r ∈ searchServiceRequests s q ↔
      (caseInsensitiveSubstr q r.customerContact ∨
       caseInsensitiveSubstr q r.serialNumber ∨
       caseInsensitiveSubstr q r.customerName ∨
       caseInsensitiveSubstr q r.productName) := by
  rw [searchServiceRequests, mem_sortDescByCreatedAt, List.mem_filter]
  simp [hr, matchesQuery, strIncludes, caseInsensitiveSubstr, or_assoc]

/-- C7 (witness): in the store holding the worked example, the query
"pump" finds the record by its product name "Pump-X". -/
theorem c7_witness :
    exampleRecordAt5 ∈ searchServiceRequests exampleStateAt5 "pump" :=
  (search_membership exampleStateAt5 "pump" exampleRecordAt5 (by decide)
    (by decide)).mpr (Or.inr (Or.inr (Or.inr (by decide))))

/-- C8: comment listings are sorted by `createdAt` ascending while all
four request listings (`getAllServiceRequests`, active, completed,
search) are sorted by `createdAt` descending — the opposite order — and
the comment listing holds exactly the stored comments of the given
request. -/
theorem listing_orderings (s : MemStorage) (id : Nat) (q : String) :
    List.Sorted commentByCreatedAtAsc (getCommentsByServiceRequestId s id) ∧
    (∀ c, c ∈ getCommentsByServiceRequestId s id ↔
      c ∈ mapValues s.comments ∧ c.serviceRequestId = id) ∧
    List.Sorted byCreatedAtDesc (getAllServiceRequests s) ∧
    List.Sorted byCreatedAtDesc (getActiveServiceRequests s) ∧
    List.Sorted byCreatedAtDesc (getCompletedServiceRequests s) ∧
    List.Sorted byCreatedAtDesc (searchServiceRequests s q) := by
  refine ⟨sorted_sortAscByCreatedAt _, ?_, sorted_sortDescByCreatedAt _,
    sorted_sortDescByCreatedAt _, sorted_sortDescByCreatedAt _,
    sorted_sortDescByCreatedAt _⟩
  intro c
  rw [getCommentsByServiceRequestId, mem_sortAscByCreatedAt, List.mem_filter,
    beq_iff_eq]

/-- C9: the attachment-append handler reads the current record and writes
back its attachment list with the new references concatenated after it,
in order, with no de-duplication and no loss; the updated record is both
returned and stored. -/
theorem append_attachments (s : MemStorage) (id : Nat) (r : ServiceRequest)
    (atts : List String) (now : Nat)
    (h1 : (getAllServiceRequests s).find? (fun x => x.id == id) = some r)
    (h2 : mapGet s.serviceRequests id = some r) :
    ∃ r', (addAttachmentsRoute s id atts now).1 = some r' ∧
      r'.attachments = r.attachments ++ atts ∧
      mapGet (addAttachmentsRoute s id atts now).2.serviceRequests id =
        some r' := by
  simp only [addAttachmentsRoute, updateServiceRequest, h1, h2]
  exact ⟨_, rfl, rfl, mapGet_mapSet_self _ _ _⟩

/-- C9 (witness): the spec's worked example — appending `["ref1"]` and
then `["ref2"]` to a record created with empty attachments yields the
attachment list `["ref1", "ref2"]`. -/
theorem c9_witness :
    ∃ r', (addAttachmentsRoute exampleStateRef1 0 ["ref2"] 7).1 = some r' ∧
      r'.attachments = ["ref1", "ref2"] := by
  obtain ⟨r', h, ha, _⟩ := append_attachments exampleStateRef1 0
    exampleRecordRef1 ["ref2"] 7 (by decide) (by decide)
  exact ⟨r', h, by rw [ha]; decide⟩

/-- C10: at the Storage-provider layer the empty query matches every
record: `searchServiceRequests` on `""` returns exactly
`getAllServiceRequests`, the same records in the same
createdAt-descending order. -/
theorem search_empty_eq_all (s : MemStorage) :
    searchServiceRequests s "" = getAllServiceRequests s := by
  unfold searchServiceRequests getAllServiceRequests
  rw [List.filter_eq_self.mpr]
  intro r _
  simp [matchesQuery, strIncludes, strToLower]

end ServiceTracker
